import Mathlib

/-!
# Verification of the `kpfr` selection/forwarding pipeline

Shallow embedding of the Rust sources (`model.rs`, `selection.rs`,
`kubectl.rs`, `main.rs`) of the interactive Kubernetes port-forward
helper, together with proofs about its selection pipeline, preference
persistence and forward-process supervision.

Modelling conventions:
* Rust `HashMap<K, V>` is modelled as an association list
  `List (K × V)` whose operations (`mapGet?`, `mapInsert`, …) mirror the
  `HashMap` API observably (lookup, replace-on-insert, `entry().or_default()`).
* `u16` port numbers are modelled as `Nat`; the program never performs
  arithmetic on ports, only equality and formatting.
* Interactive prompts (`dialoguer`) are external collaborators: each stage
  records the prompt it would display (items, default, pre-checked flags)
  and takes the user's reply as an oracle argument.  A stage that shows no
  prompt returns `none` for it.
* The preference file is modelled by `FileState`; the `serde` derive
  serialization used by `SelectionWithService::save` /
  `DefaultSelections::read` (both `camelCase`-renamed records over the same
  fields) is modelled at the record level: saving produces a fully
  populated `DefaultSelections` view, reading a malformed/missing file
  fails.
-/

namespace Kpfr

/-! ## Data model (`model.rs`) -/

structure Metadata where
  name : String
deriving DecidableEq

structure Namespace where
  metadata : Metadata
deriving DecidableEq

structure Port where
  port : Nat
deriving DecidableEq

structure ServiceSpec where
  ports : List Port
deriving DecidableEq

structure Service where
  metadata : Metadata
  spec : ServiceSpec
deriving DecidableEq

/-- `impl Display for Namespace` prints the metadata name. -/
def Namespace.display (ns : Namespace) : String := ns.metadata.name

/-- `impl Display for Service` prints the metadata name. -/
def Service.display (s : Service) : String := s.metadata.name

/-! ## Association-list model of `std::collections::HashMap` -/

variable {α β : Type} [DecidableEq α]

/-- `HashMap::get` — first entry with the given key. -/
def mapGet? : List (α × β) → α → Option β
  | [], _ => none
  | (k, v) :: rest, key => if key = k then some v else mapGet? rest key

/-- `HashMap::contains_key`. -/
def mapContains (m : List (α × β)) (k : α) : Bool :=
  (mapGet? m k).isSome

/-- `HashMap` indexing after a `contains_key` check (`map[&k]`). -/
def mapGetD (m : List (α × β)) (k : α) (d : β) : β :=
  (mapGet? m k).getD d

/-- `HashMap::insert` / `entry().insert_entry(v)` — replaces the value of an
existing key, otherwise adds the binding. -/
def mapInsert : List (α × β) → α → β → List (α × β)
  | [], key, v => [(key, v)]
  | (k, w) :: rest, key, v =>
      if key = k then (key, v) :: rest else (k, w) :: mapInsert rest key v

/-- `HashMap::keys` (as the list of keys of the entries). -/
def mapKeys (m : List (α × β)) : List α :=
  m.map Prod.fst

/-- Mapping from remote port to chosen local port, scoped to one service
(`HashMap<u16, u16>` in the Rust code). -/
abbrev LocalPortMapping := List (Nat × Nat)

/-- `HashMap<String, HashMap<u16, u16>>` — the persisted per-service port
mappings. -/
abbrev PortsByService := List (String × LocalPortMapping)

/-! ## Preference store (`selection.rs`) -/

/-- The persisted record as read back from disk (`DefaultSelections`,
`#[serde(rename_all = "camelCase")]`; every field optional on read).
The Rust field `namespace` is a Lean keyword, hence the quoted name. -/
structure DefaultSelections where
  «namespace» : Option String
  last_service : Option String
  ports : Option PortsByService
deriving DecidableEq

/-- Observable states of the preference file: absent, unreadable
(`File::open` fails), malformed (`serde_json::from_reader` fails), or
holding a well-formed record. -/
inductive FileState
  | absent
  | unreadable
  | malformed
  | valid (d : DefaultSelections)
deriving DecidableEq

/-- `DefaultSelections::read`: `File::open(..).ok()?` then
`serde_json::from_reader(..).ok()` — every failure becomes `none`. -/
def DefaultSelections.read : FileState → Option DefaultSelections
  | .valid d => some d
  | _ => none

/-- In-memory selection before a service has been chosen (`Selection`). -/
structure Selection where
  «namespace» : String
  ports : PortsByService
deriving DecidableEq

/-- In-memory selection once a service has been chosen
(`SelectionWithService`). -/
structure SelectionWithService where
  «namespace» : String
  ports : PortsByService
  last_service : String
deriving DecidableEq

/-- `Selection::from_defaults`: take the freshly selected namespace and
carry the persisted per-service mappings forward
(`defaults.as_ref().and_then(|d| d.ports.clone()).unwrap_or_default()`). -/
def Selection.from_defaults (ns : Namespace) (defaults : Option DefaultSelections) :
    Selection :=
  { «namespace» := ns.metadata.name
    ports := (defaults.bind (fun d => d.ports)).getD [] }

/-- `Selection::set_last_service` — upgrade to the newer record shape. -/
def Selection.set_last_service (s : Selection) (service : Service) :
    SelectionWithService :=
  { «namespace» := s.«namespace»
    ports := s.ports
    last_service := service.metadata.name }

/-- `SelectionWithService::save`: serializes the full record
(`serde_json::to_string_pretty`) and truncate-writes the file.  Modelled as
producing the valid file whose parsed view has every field populated. -/
def SelectionWithService.save (s : SelectionWithService) : FileState :=
  .valid { «namespace» := some s.«namespace»
           last_service := some s.last_service
           ports := some s.ports }

/-- `SelectionWithService::ports_for`:
`self.ports.entry(service.metadata.name.clone()).or_default()` — inserts an
empty mapping for the service when absent, and yields the (possibly
fresh) entry's mapping. -/
def SelectionWithService.ports_for (s : SelectionWithService) (service : Service) :
    SelectionWithService × LocalPortMapping :=
  match mapGet? s.ports service.metadata.name with
  | some m => (s, m)
  | none => ({ s with ports := mapInsert s.ports service.metadata.name [] }, [])

/-! ## Error taxonomy (`error.rs`)

`InvalidSelection`, `KubectlFailed`, `IOError` and `CtrlC` wrap foreign
error payloads; the payloads are irrelevant to the claims and dropped. -/

inductive MainError
  | NoContext
  | NoNamespace
  | NoService (ns : String)
  | NoPorts
  | InvalidSelection
  | KubectlFailed
  | IOError
  | CtrlC
deriving DecidableEq

/-! ## Interactive prompts (`dialoguer`, modelled at the interface)

Each stage returns, alongside its result, the prompt it presented (if
any): `none` means the interactive chooser was never invoked.  The user's
reply is an oracle argument; a user abort would surface uniformly as
`InvalidSelection` through `?` and is not modelled. -/

/-- A `FuzzySelect` prompt: displayed items and optional default index. -/
structure FuzzyPrompt where
  items : List String
  dflt : Option Nat
deriving DecidableEq

/-- A `MultiSelect` checklist: items with their pre-checked flags. -/
structure ChecklistPrompt where
  items : List (Nat × Bool)
deriving DecidableEq

/-- An `Input::<u16>` prompt: the remote port asked about and the optional
numeric default offered. -/
structure InputPrompt where
  port : Nat
  dflt : Option Nat
deriving DecidableEq

/-- `Iterator::position` — index of the first element satisfying the
predicate. -/
def position (p : α → Bool) : List α → Option Nat
  | [] => none
  | a :: rest => if p a then some 0 else (position p rest).map (· + 1)

/-! ## Selection pipeline stages (`main.rs`) -/

/-- `preselect_context`.  `contexts` is `context::get()`'s list, `current`
is `context::current()` (`none` when the query failed, replaced by `""` via
`unwrap_or`), `choice` the chooser reply.  Returns the prompt shown (if
any) and the argument passed to `context::set` (if called). -/
def preselect_context (contexts : List String) (current : Option String)
    (choice : Nat) : Except MainError (Option FuzzyPrompt × Option String) :=
  if contexts.isEmpty then .error .NoContext
  else
    let current_ctx := current.getD ""
    if contexts.length > 1 then
      let default_idx := position (fun ctx => current_ctx = ctx) contexts
      .ok (some { items := contexts, dflt := default_idx },
           some (contexts.getD choice ""))
    else
      .ok (none, none)

/-- `select_namespace`.  `namespaces` is `namespace::get()`'s list,
`dflt` the persisted namespace name, `choice` the chooser reply. -/
def select_namespace (namespaces : List Namespace) (dflt : Option String)
    (choice : Nat) : Except MainError (Option FuzzyPrompt × Namespace) :=
  if namespaces.isEmpty then .error .NoNamespace
  else if namespaces.length > 1 then
    let default_idx :=
      dflt.bind (fun d => position (fun ns => ns.metadata.name = d) namespaces)
    .ok (some { items := namespaces.map Namespace.display, dflt := default_idx },
         namespaces.getD choice { metadata := { name := "" } })
  else
    -- NOTE: Checked previously that at least one exists
    .ok (none, namespaces.getD 0 { metadata := { name := "" } })

/-- `select_service`.  `services` is `service::get(namespace)`'s list. -/
def select_service (services : List Service) (ns : Namespace)
    (dflt : Option String) (choice : Nat) :
    Except MainError (Option FuzzyPrompt × Service) :=
  if services.isEmpty then .error (.NoService ns.metadata.name)
  else if services.length > 1 then
    let default_idx :=
      dflt.bind (fun d => position (fun s => s.metadata.name = d) services)
    .ok (some { items := services.map Service.display, dflt := default_idx },
         services.getD choice { metadata := { name := "" }, spec := { ports := [] } })
  else
    -- NOTE: Checked previously that at least one exists
    .ok (none, services.getD 0 { metadata := { name := "" }, spec := { ports := [] } })

/-- `select_remote_ports`.  `default_ports` is the service's persisted
local-port mapping, `checks` the list of indices the user leaves checked in
the `MultiSelect` (the `interact()` result).  Returns the checklist shown
(if any) and the selected remote ports. -/
def select_remote_ports (service : Service) (default_ports : LocalPortMapping)
    (checks : List Nat) : Option ChecklistPrompt × List Nat :=
  let default_keys := mapKeys default_ports
  let port_items := service.spec.ports
  let ports := port_items.map (fun p => (p.port, default_keys.contains p.port))
  if ports.length = 1 then
    (some { items := ports },
     checks.map (fun s => (port_items.getD s { port := 0 }).port))
  else
    (none, ports.map Prod.fst)

/-- `select_local_ports`.  For each selected remote port an `Input` prompt
is shown, with the persisted local port as default when present; `input`
is the oracle for the value `interact()` returns (typed, or the default
accepted).  Returns the prompts shown and the fresh mapping. -/
def select_local_ports (selected_ports : List Nat)
    (service_ports : LocalPortMapping) (input : Nat → Nat) :
    List InputPrompt × LocalPortMapping :=
  let prompts := selected_ports.map (fun port =>
    { port := port
      dflt :=
        if mapContains service_ports port then
          some (mapGetD service_ports port 0)
        else none : InputPrompt })
  let ports := selected_ports.foldl
    (fun acc port => mapInsert acc port (input port)) []
  (prompts, ports)

/-! ## Forwarding subprocess invocation (`kubectl.rs`) -/

/-- `forward_ports` — the argument vector handed to the spawned tool:
`--namespace <ns> port-forward service/<service>` followed by one
`{local_port}:{remote_port}` argument per mapping entry. -/
def forward_ports (ns : Namespace) (service : Service)
    (ports : LocalPortMapping) : List String :=
  ["--namespace", ns.display, "port-forward", "service/" ++ service.display]
    ++ ports.map (fun rl => toString rl.2 ++ ":" ++ toString rl.1)

/-! ## The `main` pipeline (`main.rs`) -/

/-- The environment of one run: live cluster state, preference-file state
and the user's interactive replies.  Gateway queries that the claims treat
as succeeding return their lists directly; `currentContext = none` models
a failing `context::current()` query. -/
structure Env where
  contexts : List String
  currentContext : Option String
  namespaces : List Namespace
  services : String → List Service
  fileState : FileState
  ctxChoice : Nat
  nsChoice : Nat
  svcChoice : Nat
  portChecks : List Nat
  localInput : Nat → Nat

/-- Observable outcome of a run.  `earlyFail` prints the error and exits
with failure, nothing saved; `abortNoPorts` saves the record, prints
`NoPorts` and exits with failure, never spawning the forward;
`forward` saves the record and spawns the forwarding subprocess with the
given argument vector.  The chosen service's name is carried alongside as
an observable. -/
inductive Outcome
  | earlyFail (e : MainError)
  | abortNoPorts (saved : SelectionWithService) (svcName : String)
  | forward (saved : SelectionWithService) (svcName : String) (args : List String)
deriving DecidableEq

/-- Process exit status: `0` = `ExitCode::SUCCESS`, `1` = `ExitCode::FAILURE`. -/
def Outcome.exitCode : Outcome → Nat
  | .earlyFail _ => 1
  | .abortNoPorts _ _ => 1
  | .forward _ _ _ => 0

/-- Whether the forwarding subprocess was spawned. -/
def Outcome.startedForward : Outcome → Bool
  | .forward _ _ _ => true
  | _ => false

/-- The record written to the preference file by the run, if any. -/
def Outcome.savedRecord : Outcome → Option SelectionWithService
  | .earlyFail _ => none
  | .abortNoPorts s _ => some s
  | .forward s _ _ => some s

/-- `main` — the selection pipeline from preference load to subprocess
spawn, following `main.rs` line by line (the second, unreachable
`remote_ports.is_empty()` check after the save is dead code and elided). -/
def mainModel (env : Env) : Outcome :=
  let defaults := DefaultSelections.read env.fileState
  match preselect_context env.contexts env.currentContext env.ctxChoice with
  | .error e => .earlyFail e
  | .ok _ =>
    let default_namespace := defaults.bind (fun d => d.«namespace»)
    match select_namespace env.namespaces default_namespace env.nsChoice with
    | .error e => .earlyFail e
    | .ok (_, ns) =>
      let selection := Selection.from_defaults ns defaults
      let default_service := defaults.bind (fun d => d.last_service)
      match select_service (env.services ns.metadata.name) ns default_service
          env.svcChoice with
      | .error e => .earlyFail e
      | .ok (_, service) =>
        let selection := selection.set_last_service service
        let entry := selection.ports_for service
        let selection := entry.1
        let default_ports := entry.2
        let remote_ports := (select_remote_ports service default_ports env.portChecks).2
        if remote_ports.isEmpty then
          .abortNoPorts selection service.metadata.name
        else
          let ports_mapping :=
            (select_local_ports remote_ports default_ports env.localInput).2
          let selection : SelectionWithService :=
            { selection with
                ports := mapInsert selection.ports service.metadata.name ports_mapping }
          let ports := mapGetD selection.ports service.metadata.name []
          .forward selection service.metadata.name (forward_ports ns service ports)

/-! ## Forward supervisor (`main.rs`, Ctrl-C handler)

The `ctrlc` crate invokes the registered closure once per delivered
interrupt.  The closure owns the child handle and performs
`forward_process.kill().unwrap(); forward_process.wait().unwrap();`
then prints a notice and clears the shared `running` flag.
`std::process::Child::kill` returns an error when the child has already
been reaped by `wait`, and `.unwrap()` turns that error into a panic;
`handlerInvoke` returns `.error ()` in that case, after the kill attempt
has been recorded. -/

structure SupervisorState where
  /-- the child has been reaped by `wait()` -/
  procReaped : Bool
  /-- number of `kill()` attempts made on the child handle -/
  killAttempts : Nat
  /-- number of completed `wait()` calls -/
  waitCalls : Nat
  /-- the shared `running` flag polled by the main loop -/
  runningFlag : Bool
deriving DecidableEq

/-- Supervisor state right after `forward_ports` spawned the child. -/
def supervisorStart : SupervisorState :=
  { procReaped := false, killAttempts := 0, waitCalls := 0, runningFlag := true }

/-- Supervisor state after one interrupt: child killed and reaped once,
running flag cleared. -/
def afterFirstInterrupt : SupervisorState :=
  { procReaped := true, killAttempts := 1, waitCalls := 1, runningFlag := false }

/-- `Child::kill` — records the attempt; succeeds iff the child has not
been reaped yet. -/
def childKill (s : SupervisorState) : SupervisorState × Bool :=
  ({ s with killAttempts := s.killAttempts + 1 }, !s.procReaped)

/-- One invocation of the registered interrupt handler.  `.error ()` is the
`unwrap()` panic on a failed `kill`. -/
def handlerInvoke (s : SupervisorState) : Except Unit SupervisorState :=
  let killed := childKill s
  if killed.2 then
    let s1 := { killed.1 with procReaped := true, waitCalls := killed.1.waitCalls + 1 }
    .ok { s1 with runningFlag := false }
  else
    .error ()

/-- The per-service mappings available to the run after loading the
preference file (empty when the file was absent or malformed). -/
def loadedPorts (env : Env) : PortsByService :=
  ((DefaultSelections.read env.fileState).bind (fun d => d.ports)).getD []

/-! ### Concrete sample runs (used to evaluate the model on closed inputs) -/

/-- A first run: empty preference file, one context, one namespace `ns`,
one service `svc` exposing port 80, user unchecks the single port. -/
def firstRunEnv : Env :=
  { contexts := ["ctx"]
    currentContext := some "ctx"
    namespaces := [{ metadata := { name := "ns" } }]
    services := fun _ => [{ metadata := { name := "svc" }
                            spec := { ports := [{ port := 80 }] } }]
    fileState := .absent
    ctxChoice := 0
    nsChoice := 0
    svcChoice := 0
    portChecks := []
    localInput := fun _ => 0 }

/-- A re-run with history: persisted record holds mappings for `api`
(8080 ↦ 9090) and `db` (5432 ↦ 5432); the live cluster offers one context,
one namespace `dev` and one service `api` with the single port 8080; the
user keeps the port checked and types local port 7777. -/
def rerunEnv : Env :=
  { contexts := ["ctx"]
    currentContext := some "ctx"
    namespaces := [{ metadata := { name := "dev" } }]
    services := fun _ => [{ metadata := { name := "api" }
                            spec := { ports := [{ port := 8080 }] } }]
    fileState := .valid
      { «namespace» := some "dev"
        last_service := some "api"
        ports := some [("api", [(8080, 9090)]), ("db", [(5432, 5432)])] }
    ctxChoice := 0
    nsChoice := 0
    svcChoice := 0
    portChecks := [0]
    localInput := fun _ => 7777 }

/-- The record `rerunEnv` saves: the `api` entry replaced by the fresh
mapping, the `db` entry carried forward untouched. -/
def rerunSaved : SelectionWithService :=
  { «namespace» := "dev"
    ports := [("api", [(8080, 7777)]), ("db", [(5432, 5432)])]
    last_service := "api" }

/-- The argument vector `rerunEnv` hands to the forwarding subprocess. -/
def rerunArgs : List String :=
  ["--namespace", "dev", "port-forward", "service/api", "7777:8080"]

/-! ## Helper lemmas about the map model -/

theorem mapGet?_insert_self (m : List (α × β)) (k : α) (v : β) :
    mapGet? (mapInsert m k v) k = some v := by
  induction m with
  | nil => simp [mapInsert, mapGet?]
  | cons a rest ih =>
    obtain ⟨ka, va⟩ := a
    by_cases h : k = ka
    · simp [mapInsert, h, mapGet?]
    · simp [mapInsert, h, mapGet?, ih]

theorem mapGet?_insert_ne (m : List (α × β)) (k k' : α) (v : β) (h : k' ≠ k) :
    mapGet? (mapInsert m k v) k' = mapGet? m k' := by
  induction m with
  | nil => simp [mapInsert, mapGet?, h]
  | cons a rest ih =>
    obtain ⟨ka, va⟩ := a
    by_cases hk : k = ka
    · subst hk
      simp [mapInsert, mapGet?, h]
    · by_cases hk' : k' = ka
      · simp [mapInsert, mapGet?, hk, hk']
      · simp [mapInsert, mapGet?, hk, hk', ih]

theorem mapContains_insert_iff (m : List (α × β)) (k k' : α) (v : β) :
    mapContains (mapInsert m k v) k' = true ↔
      mapContains m k' = true ∨ k' = k := by
  by_cases h : k' = k
  · subst h
    simp [mapContains, mapGet?_insert_self]
  · simp [mapContains, mapGet?_insert_ne m k k' v h, h]

theorem decide_mem_mapKeys (m : List (α × β)) (k : α) :
    decide (k ∈ mapKeys m) = mapContains m k := by
  induction m with
  | nil => rfl
  | cons a rest ih =>
    obtain ⟨ka, va⟩ := a
    by_cases h : k = ka
    · simp [mapKeys, mapContains, mapGet?, h]
    · have hbeq : (k == ka) = false := beq_eq_false_iff_ne.mpr h
      simpa [mapKeys, mapContains, mapGet?, h, hbeq] using ih

omit [DecidableEq α] in
theorem position_eq_none (p : α → Bool) (l : List α)
    (h : ∀ a ∈ l, p a = false) : position p l = none := by
  induction l with
  | nil => rfl
  | cons a rest ih =>
    have ha := h a (List.mem_cons_self a rest)
    simp [position, ha, ih fun x hx => h x (List.mem_cons_of_mem a hx)]

/-! ## Helper lemmas about `ports_for` and `select_local_ports` -/

theorem ports_for_namespace (s : SelectionWithService) (svc : Service) :
    (s.ports_for svc).1.«namespace» = s.«namespace» := by
  rcases h : mapGet? s.ports svc.metadata.name with _ | m <;>
    simp [SelectionWithService.ports_for, h]

theorem ports_for_last_service (s : SelectionWithService) (svc : Service) :
    (s.ports_for svc).1.last_service = s.last_service := by
  rcases h : mapGet? s.ports svc.metadata.name with _ | m <;>
    simp [SelectionWithService.ports_for, h]

theorem ports_for_get_ne (s : SelectionWithService) (svc : Service) (k : String)
    (hk : k ≠ svc.metadata.name) :
    mapGet? (s.ports_for svc).1.ports k = mapGet? s.ports k := by
  rcases h : mapGet? s.ports svc.metadata.name with _ | m <;>
    simp [SelectionWithService.ports_for, h, mapGet?_insert_ne _ _ _ _ hk]

theorem ports_for_contains (s : SelectionWithService) (svc : Service) (k : String)
    (hk : mapContains (s.ports_for svc).1.ports k = true) :
    mapContains s.ports k = true ∨ k = svc.metadata.name := by
  rcases h : mapGet? s.ports svc.metadata.name with _ | m
  · rw [SelectionWithService.ports_for, h] at hk
    exact (mapContains_insert_iff _ _ _ _).mp hk
  · rw [SelectionWithService.ports_for, h] at hk
    exact Or.inl hk

theorem select_local_ports_contains (ports : List Nat) (m : LocalPortMapping)
    (input : Nat → Nat) (p : Nat) :
    mapContains (select_local_ports ports m input).2 p = true ↔ p ∈ ports := by
  have general : ∀ (l : List Nat) (acc : LocalPortMapping),
      mapContains (l.foldl (fun acc port => mapInsert acc port (input port)) acc) p = true ↔
        mapContains acc p = true ∨ p ∈ l := by
    intro l
    induction l with
    | nil => simp [mapContains]
    | cons a rest ih =>
      intro acc
      rw [List.foldl_cons, ih, mapContains_insert_iff]
      simp [or_assoc, List.mem_cons]
  have base : mapContains ([] : LocalPortMapping) p = false := rfl
  simp [select_local_ports, general ports [], base]

/-! ## Inversion of the main pipeline

Characterizes the record saved by a run from the outcome constructor:
`abortNoPorts` saves the selection exactly as produced by
`ports_for` (namespace, carried-forward mappings, possibly a fresh empty
entry for the visited service); `forward` additionally stores the
freshly built local-port mapping under the chosen service's name. -/

theorem mainModel_abort_cases (env : Env) (sel : SelectionWithService)
    (svcName : String) (h : mainModel env = .abortNoPorts sel svcName) :
    ∃ (ns : Namespace) (svc : Service),
      svcName = svc.metadata.name ∧
      sel = (((Selection.from_defaults ns
          (DefaultSelections.read env.fileState)).set_last_service
            svc).ports_for svc).1 := by
  simp only [mainModel] at h
  split at h
  · exact Outcome.noConfusion h
  split at h
  · exact Outcome.noConfusion h
  rename_i pn ns hns
  split at h
  · exact Outcome.noConfusion h
  rename_i ps svc hsvc
  split at h
  · injection h with h1 h2
    exact ⟨ns, svc, h2.symm, h1.symm⟩
  · exact Outcome.noConfusion h

theorem mainModel_forward_cases (env : Env) (sel : SelectionWithService)
    (svcName : String) (args : List String)
    (h : mainModel env = .forward sel svcName args) :
    ∃ (ns : Namespace) (svc : Service) (base : SelectionWithService)
      (dps : LocalPortMapping) (remote : List Nat) (fresh : LocalPortMapping),
      svcName = svc.metadata.name ∧
      base = (((Selection.from_defaults ns (DefaultSelections.read
        env.fileState)).set_last_service svc).ports_for svc).1 ∧
      dps = (((Selection.from_defaults ns (DefaultSelections.read
        env.fileState)).set_last_service svc).ports_for svc).2 ∧
      remote = (select_remote_ports svc dps env.portChecks).2 ∧
      fresh = (select_local_ports remote dps env.localInput).2 ∧
      sel = { base with ports := mapInsert base.ports svc.metadata.name fresh } := by
  simp only [mainModel] at h
  split at h
  · exact Outcome.noConfusion h
  split at h
  · exact Outcome.noConfusion h
  rename_i pn ns hns
  split at h
  · exact Outcome.noConfusion h
  rename_i ps svc hsvc
  split at h
  · exact Outcome.noConfusion h
  · injection h with h1 h2 h3
    subst h1
    subst h2
    exact ⟨ns, svc, _, _, _, _, rfl, rfl, rfl, rfl, rfl, rfl⟩

/-! ## Claim theorems -/

/-- C1: For each of the context, namespace and service selection stages:
an empty live option list fails the stage with its named error
(`NoContext`, `NoNamespace`, `NoService` carrying the namespace name
respectively); a singleton list is selected without invoking the
interactive chooser (the context stage keeps the sole context implicitly:
no prompt and no `context::set` call); only a list with more than one
element presents the fuzzy chooser. -/
theorem stage_cardinality_dispatch :
    (∀ cur choice, preselect_context [] cur choice = .error .NoContext)
    ∧ (∀ c cur choice, preselect_context [c] cur choice = .ok (none, none))
    ∧ (∀ c₁ c₂ cs cur choice, ∃ prompt sel,
        preselect_context (c₁ :: c₂ :: cs) cur choice = .ok (some prompt, some sel))
    ∧ (∀ dflt choice, select_namespace [] dflt choice = .error .NoNamespace)
    ∧ (∀ n dflt choice, select_namespace [n] dflt choice = .ok (none, n))
    ∧ (∀ n₁ n₂ rest dflt choice, ∃ prompt sel,
        select_namespace (n₁ :: n₂ :: rest) dflt choice = .ok (some prompt, sel))
    ∧ (∀ ns dflt choice,
        select_service [] ns dflt choice = .error (.NoService ns.metadata.name))
    ∧ (∀ s ns dflt choice, select_service [s] ns dflt choice = .ok (none, s))
    ∧ (∀ s₁ s₂ rest ns dflt choice, ∃ prompt sel,
        select_service (s₁ :: s₂ :: rest) ns dflt choice = .ok (some prompt, sel)) := by
  refine ⟨?_, ?_, ?_, ?_, ?_, ?_, ?_, ?_, ?_⟩
  · intro cur choice; rfl
  · intro c cur choice; rfl
  · intro c₁ c₂ cs cur choice
    have h2 : (c₁ :: c₂ :: cs).length > 1 := by simp [List.length_cons]
    refine ⟨{ items := c₁ :: c₂ :: cs,
              dflt := position (fun ctx => cur.getD "" = ctx) (c₁ :: c₂ :: cs) },
            (c₁ :: c₂ :: cs).getD choice "", ?_⟩
    simp [preselect_context, h2]
  · intro dflt choice; rfl
  · intro n dflt choice; simp [select_namespace]
  · intro n₁ n₂ rest dflt choice
    have h2 : (n₁ :: n₂ :: rest).length > 1 := by simp [List.length_cons]
    refine ⟨{ items := (n₁ :: n₂ :: rest).map Namespace.display,
              dflt := dflt.bind (fun d =>
                position (fun ns => ns.metadata.name = d) (n₁ :: n₂ :: rest)) },
            (n₁ :: n₂ :: rest).getD choice { metadata := { name := "" } }, ?_⟩
    simp [select_namespace, h2]
  · intro ns dflt choice; rfl
  · intro s ns dflt choice; simp [select_service]
  · intro s₁ s₂ rest ns dflt choice
    have h2 : (s₁ :: s₂ :: rest).length > 1 := by simp [List.length_cons]
    refine ⟨{ items := (s₁ :: s₂ :: rest).map Service.display,
              dflt := dflt.bind (fun d =>
                position (fun s => s.metadata.name = d) (s₁ :: s₂ :: rest)) },
            (s₁ :: s₂ :: rest).getD choice
              { metadata := { name := "" }, spec := { ports := [] } }, ?_⟩
    simp [select_service, h2]

/-- C2: In the remote-port stage, a service with exactly one port gets a
single-item checklist whose item is pre-checked exactly when the port is a
key of the service's persisted local-port mapping, and the returned
selection is the checked subset (empty when the user unchecks, the port
when left checked); a service with more than one port triggers no
interaction and all its ports are returned, whatever the persisted
mapping. -/
theorem remote_port_stage :
    (∀ name p (m : LocalPortMapping) checks,
      select_remote_ports ⟨⟨name⟩, ⟨[p]⟩⟩ m checks =
        (some { items := [(p.port, mapContains m p.port)] },
         checks.map (fun s => ([p].getD s { port := 0 }).port)))
    ∧ (∀ name p (m : LocalPortMapping),
        (select_remote_ports ⟨⟨name⟩, ⟨[p]⟩⟩ m []).2 = [])
    ∧ (∀ name p (m : LocalPortMapping),
        (select_remote_ports ⟨⟨name⟩, ⟨[p]⟩⟩ m [0]).2 = [p.port])
    ∧ (∀ name p₁ p₂ rest (m : LocalPortMapping) checks,
        select_remote_ports ⟨⟨name⟩, ⟨p₁ :: p₂ :: rest⟩⟩ m checks =
          (none, (p₁ :: p₂ :: rest).map Port.port)) := by
  refine ⟨?_, ?_, ?_, ?_⟩
  · intro name p m checks
    simp [select_remote_ports, decide_mem_mapKeys]
  · intro name p m
    simp [select_remote_ports]
  · intro name p m
    simp [select_remote_ports]
  · intro name p₁ p₂ rest m checks
    simp [select_remote_ports]

/-- C4: In the local-port stage every selected remote port is prompted
with the previously persisted local port for that remote port as default
when one exists, and with no numeric default otherwise; and the freshly
built mapping replaces (rather than merges with) the service's entry in
`portsByService` before saving: `mapInsert` (the model of
`entry().insert_entry(..)`) overwrites the whole value at the key and
leaves every other key unchanged, and a successful run stores under the
chosen service exactly the stage's fresh mapping, whose keys are the
remote ports selected this run. -/
theorem local_port_stage :
    (∀ (ports : List Nat) (m : LocalPortMapping) (input : Nat → Nat),
      (select_local_ports ports m input).1 =
        ports.map (fun p => { port := p, dflt := mapGet? m p }))
    ∧ (∀ (pm : PortsByService) (k : String) (v : LocalPortMapping),
        mapGet? (mapInsert pm k v) k = some v)
    ∧ (∀ (pm : PortsByService) (k k' : String) (v : LocalPortMapping),
        k' ≠ k → mapGet? (mapInsert pm k v) k' = mapGet? pm k')
    ∧ (∀ env sel svcName args, mainModel env = .forward sel svcName args →
        ∃ (remote : List Nat) (dps : LocalPortMapping),
          mapGet? sel.ports svcName =
            some ((select_local_ports remote dps env.localInput).2) ∧
          (∀ p, mapContains ((select_local_ports remote dps env.localInput).2) p
              = true ↔ p ∈ remote)) := by
  refine ⟨?_, ?_, ?_, ?_⟩
  · intro ports m input
    have heq : (fun port =>
        ({ port := port,
           dflt := if mapContains m port then some (mapGetD m port 0) else none }
          : InputPrompt)) =
        fun p => { port := p, dflt := mapGet? m p } := by
      funext p
      rcases h : mapGet? m p with _ | v <;> simp [mapContains, mapGetD, h]
    simp [select_local_ports, heq]
  · intro pm k v
    exact mapGet?_insert_self pm k v
  · intro pm k k' v h
    exact mapGet?_insert_ne pm k k' v h
  · intro env sel svcName args h
    obtain ⟨ns, svc, base, dps, remote, fresh, hname, hbase, hdps, hremote,
      hfresh, hsel⟩ := mainModel_forward_cases env sel svcName args h
    subst hname
    refine ⟨remote, dps, ?_, ?_⟩
    · rw [hsel]
      show mapGet? (mapInsert base.ports svc.metadata.name fresh)
        svc.metadata.name = _
      rw [mapGet?_insert_self, hfresh]
    · intro p
      exact select_local_ports_contains remote dps env.localInput p

/-- C4 witness: on the concrete re-run, the `db` key is untouched by the
insertion for `api`, and the saved `api` entry is exactly the fresh
mapping of the run. -/
theorem local_port_stage_witness :
    (mapGet? (mapInsert [("api", [(8080, 9090)])] "api" [(8080, 7777)]) "db" =
      mapGet? [("api", [(8080, 9090)])] "db")
    ∧ (∃ (remote : List Nat) (dps : LocalPortMapping),
        mapGet? rerunSaved.ports "api" =
          some ((select_local_ports remote dps rerunEnv.localInput).2) ∧
        (∀ p, mapContains ((select_local_ports remote dps rerunEnv.localInput).2) p
            = true ↔ p ∈ remote)) := by
  constructor
  · exact local_port_stage.2.2.1 [("api", [(8080, 9090)])] "api" "db"
      [(8080, 7777)] (by decide)
  · exact local_port_stage.2.2.2 rerunEnv rerunSaved "api" rerunArgs (by decide)

/-- C5: loading the preference record from an absent, unreadable or
malformed file never propagates an error: it yields `none`, which the run
treats exactly as the empty record — no namespace default, no
last-service default, no carried-forward mappings — and the whole
pipeline behaves identically to a first run over an absent file. -/
theorem preference_load_degrades :
    (DefaultSelections.read .absent = none)
    ∧ (DefaultSelections.read .unreadable = none)
    ∧ (DefaultSelections.read .malformed = none)
    ∧ ((none : Option DefaultSelections).bind (fun d => d.«namespace») = none)
    ∧ ((none : Option DefaultSelections).bind (fun d => d.last_service) = none)
    ∧ (∀ ns : Namespace, (Selection.from_defaults ns none).ports = [])
    ∧ (∀ env : Env, mainModel { env with fileState := .unreadable } =
        mainModel { env with fileState := .absent })
    ∧ (∀ env : Env, mainModel { env with fileState := .malformed } =
        mainModel { env with fileState := .absent }) :=
  ⟨rfl, rfl, rfl, rfl, rfl, fun _ => rfl, fun _ => rfl, fun _ => rfl⟩

/-- C6: persisting loses no information.  `load ∘ save` returns every
field of the saved record; a next run re-choosing the same namespace and
service reconstructs a record whose mappings are exactly the saved ones,
and saving it reproduces the same file; and in any run (successful or
aborted with `NoPorts`), every `portsByService` entry other than the
chosen service's is carried into the saved record unchanged from the
loaded file. -/
theorem preference_roundtrip :
    (∀ R : SelectionWithService,
      DefaultSelections.read R.save =
        some { «namespace» := some R.«namespace»
               last_service := some R.last_service
               ports := some R.ports })
    ∧ (∀ (R : SelectionWithService) (ns : Namespace) (svc : Service),
        ((Selection.from_defaults ns
          (DefaultSelections.read R.save)).set_last_service svc).ports = R.ports)
    ∧ (∀ (R : SelectionWithService) (ns : Namespace) (svc : Service),
        ns.metadata.name = R.«namespace» → svc.metadata.name = R.last_service →
        ((Selection.from_defaults ns
          (DefaultSelections.read R.save)).set_last_service svc).save = R.save)
    ∧ (∀ env sel svcName args, mainModel env = .forward sel svcName args →
        ∀ k, k ≠ svcName → mapGet? sel.ports k = mapGet? (loadedPorts env) k)
    ∧ (∀ env sel svcName, mainModel env = .abortNoPorts sel svcName →
        ∀ k, k ≠ svcName → mapGet? sel.ports k = mapGet? (loadedPorts env) k) := by
  refine ⟨fun R => rfl, fun R ns svc => rfl, ?_, ?_, ?_⟩
  · intro R ns svc hns hsvc
    simp [SelectionWithService.save, Selection.from_defaults,
      Selection.set_last_service, DefaultSelections.read, hns, hsvc]
  · intro env sel svcName args h k hk
    obtain ⟨ns, svc, base, dps, remote, fresh, hname, hbase, hdps, hremote,
      hfresh, hsel⟩ := mainModel_forward_cases env sel svcName args h
    subst hname
    rw [hsel]
    show mapGet? (mapInsert base.ports svc.metadata.name fresh) k = _
    rw [mapGet?_insert_ne _ _ _ _ hk, hbase, ports_for_get_ne _ _ _ hk]
    rfl
  · intro env sel svcName h k hk
    obtain ⟨ns, svc, hname, hsel⟩ := mainModel_abort_cases env sel svcName h
    subst hname
    rw [hsel, ports_for_get_ne _ _ _ hk]
    rfl

/-- C6 witness: for the concrete record `{dev, api ↦ (8080 ↦ 9090)}`,
re-saving after a reload reproduces the file, and on the concrete re-run
the `db` entry survives the run unchanged. -/
theorem preference_roundtrip_witness :
    (((Selection.from_defaults { metadata := { name := "dev" } }
        (DefaultSelections.read (SelectionWithService.mk "dev"
          [("api", [(8080, 9090)])] "api").save)).set_last_service
        { metadata := { name := "api" }, spec := { ports := [{ port := 8080 }] } }).save =
      (SelectionWithService.mk "dev" [("api", [(8080, 9090)])] "api").save)
    ∧ mapGet? rerunSaved.ports "db" = mapGet? (loadedPorts rerunEnv) "db"
    ∧ mapGet? (SelectionWithService.mk "ns" [("svc", [])] "svc").ports "other" =
        mapGet? (loadedPorts firstRunEnv) "other" := by
  refine ⟨?_, ?_, ?_⟩
  · exact preference_roundtrip.2.2.1 (SelectionWithService.mk "dev"
      [("api", [(8080, 9090)])] "api") { metadata := { name := "dev" } }
      { metadata := { name := "api" }, spec := { ports := [{ port := 8080 }] } }
      rfl rfl
  · exact preference_roundtrip.2.2.2.1 rerunEnv rerunSaved "api" rerunArgs
      (by decide) "db" (by decide)
  · exact preference_roundtrip.2.2.2.2 firstRunEnv
      (SelectionWithService.mk "ns" [("svc", [])] "svc") "svc"
      (by decide) "other" (by decide)

/-- C3: when the selection stages succeed and the remote-port stage
returns zero ports (single exposed port, user unchecks it), the run saves
the record — whose namespace and last service are the stage choices — to
the preference file, fails with `NoPorts`, exits with failure status, and
never starts the forwarding subprocess. -/
theorem noports_abort_persists (env : Env)
    (pc : Option FuzzyPrompt × Option String) (pn : Option FuzzyPrompt)
    (ns : Namespace) (ps : Option FuzzyPrompt) (svc : Service) (p : Port)
    (hc : preselect_context env.contexts env.currentContext env.ctxChoice =
      .ok pc)
    (hn : select_namespace env.namespaces ((DefaultSelections.read
      env.fileState).bind (fun d => d.«namespace»)) env.nsChoice = .ok (pn, ns))
    (hs : select_service (env.services ns.metadata.name) ns
      ((DefaultSelections.read env.fileState).bind (fun d => d.last_service))
      env.svcChoice = .ok (ps, svc))
    (hp : svc.spec.ports = [p])
    (hchecks : env.portChecks = []) :
    ∃ sel, mainModel env = .abortNoPorts sel svc.metadata.name ∧
      sel.«namespace» = ns.metadata.name ∧
      sel.last_service = svc.metadata.name ∧
      (mainModel env).savedRecord = some sel ∧
      (mainModel env).exitCode = 1 ∧
      (mainModel env).startedForward = false := by
  have hmain : mainModel env = .abortNoPorts
      ((((Selection.from_defaults ns (DefaultSelections.read
        env.fileState)).set_last_service svc).ports_for svc).1)
      svc.metadata.name := by
    simp only [mainModel, hc, hn, hs]
    simp [select_remote_ports, hp, hchecks]
  refine ⟨_, hmain, ?_, ?_, ?_, ?_, ?_⟩
  · rw [ports_for_namespace]; rfl
  · rw [ports_for_last_service]; rfl
  · rw [hmain]; rfl
  · rw [hmain]; rfl
  · rw [hmain]; rfl

/-- C3 witness: the concrete first run aborts with `NoPorts`, persisting
namespace `ns` and last service `svc`, with failure exit and no forward. -/
theorem noports_abort_persists_witness :
    ∃ sel, mainModel firstRunEnv = .abortNoPorts sel "svc" ∧
      sel.«namespace» = "ns" ∧
      sel.last_service = "svc" ∧
      (mainModel firstRunEnv).savedRecord = some sel ∧
      (mainModel firstRunEnv).exitCode = 1 ∧
      (mainModel firstRunEnv).startedForward = false :=
  noports_abort_persists firstRunEnv (none, none) none
    { metadata := { name := "ns" } } none
    { metadata := { name := "svc" }, spec := { ports := [{ port := 80 }] } }
    { port := 80 } rfl rfl rfl rfl rfl

/-- C7 counterexample: on a first run (preference file absent, so nothing
was ever forwarded) that aborts with `NoPorts` — and thus never starts a
forward — the saved record nevertheless contains a `portsByService` entry
for the visited service `svc` (inserted by `entry().or_default()` in
`ports_for` and persisted by the abort-path save), refuting "no operation
introduces a `portsByService` entry for a service that was never
forwarded". -/
theorem ports_keys_counterexample :
    DefaultSelections.read firstRunEnv.fileState = none
    ∧ mainModel firstRunEnv =
        .abortNoPorts (SelectionWithService.mk "ns" [("svc", [])] "svc") "svc"
    ∧ (mainModel firstRunEnv).startedForward = false
    ∧ mapContains (SelectionWithService.mk "ns" [("svc", [])] "svc").ports
        "svc" = true := by
  decide

/-- C7 amended: in every record written to the preference file, each
`portsByService` key is either a key loaded from the preference file or
the name of the service chosen this run (which the `NoPorts` abort path
also records, with an empty mapping, even though it was not forwarded);
and the inner mapping built for the chosen service has as keys exactly
the remote ports selected this run. -/
theorem ports_keys_provenance :
    (∀ env sel svcName, mainModel env = .abortNoPorts sel svcName →
      ∀ k, mapContains sel.ports k = true →
        mapContains (loadedPorts env) k = true ∨ k = svcName)
    ∧ (∀ env sel svcName args, mainModel env = .forward sel svcName args →
      ∀ k, mapContains sel.ports k = true →
        mapContains (loadedPorts env) k = true ∨ k = svcName)
    ∧ (∀ (ports : List Nat) (m : LocalPortMapping) (input : Nat → Nat) p,
        mapContains ((select_local_ports ports m input).2) p = true ↔
          p ∈ ports) := by
  refine ⟨?_, ?_, ?_⟩
  · intro env sel svcName h k hk
    obtain ⟨ns, svc, hname, hsel⟩ := mainModel_abort_cases env sel svcName h
    subst hname
    rw [hsel] at hk
    exact ports_for_contains _ svc k hk
  · intro env sel svcName args h k hk
    obtain ⟨ns, svc, base, dps, remote, fresh, hname, hbase, hdps, hremote,
      hfresh, hsel⟩ := mainModel_forward_cases env sel svcName args h
    subst hname
    rw [hsel] at hk
    have hk' : mapContains (mapInsert base.ports svc.metadata.name fresh) k =
      true := hk
    rcases (mapContains_insert_iff _ _ _ _).mp hk' with hbasek | hkeq
    · rw [hbase] at hbasek
      exact ports_for_contains _ svc k hbasek
    · exact Or.inr hkeq
  · intro ports m input p
    exact select_local_ports_contains ports m input p

/-- C7 amended witness: concrete instantiations on the sample runs. -/
theorem ports_keys_provenance_witness :
    (mapContains (loadedPorts firstRunEnv) "svc" = true ∨ "svc" = "svc")
    ∧ (mapContains (loadedPorts rerunEnv) "db" = true ∨ "db" = "api")
    ∧ (mapContains ((select_local_ports [8080] [(8080, 9090)]
        (fun _ => 7777)).2) 8080 = true ↔ 8080 ∈ [8080]) := by
  refine ⟨?_, ?_, ?_⟩
  · exact ports_keys_provenance.1 firstRunEnv
      (SelectionWithService.mk "ns" [("svc", [])] "svc") "svc"
      (by decide) "svc" (by decide)
  · exact ports_keys_provenance.2.1 rerunEnv rerunSaved "api" rerunArgs
      (by decide) "db" (by decide)
  · exact ports_keys_provenance.2.2 [8080] [(8080, 9090)] (fun _ => 7777) 8080

/-- C8 counterexample: for the mapping `{80 ↦ 9000}` the spawned argument
vector carries `"9000:80"` — local port first — and not the claimed
`"80:9000"` (remote first). -/
theorem forward_args_counterexample :
    forward_ports { metadata := { name := "ns" } }
      { metadata := { name := "svc" }, spec := { ports := [{ port := 80 }] } }
      [(80, 9000)] =
      ["--namespace", "ns", "port-forward", "service/svc", "9000:80"]
    ∧ ¬ ("80:9000" ∈ forward_ports { metadata := { name := "ns" } }
        { metadata := { name := "svc" }, spec := { ports := [{ port := 80 }] } }
        [(80, 9000)]) := by
  decide

/-- C8 amended: `forward_ports` passes exactly one port-pair argument per
entry of the `LocalPortMapping`, after the fixed four-argument prefix,
each pair in the form `local:remote` (chosen local port first, then the
remote port). -/
theorem forward_args_shape (ns : Namespace) (svc : Service)
    (m : LocalPortMapping) :
    (forward_ports ns svc m).length = 4 + m.length
    ∧ (forward_ports ns svc m).take 4 =
        ["--namespace", ns.metadata.name, "port-forward",
         "service/" ++ svc.metadata.name]
    ∧ (forward_ports ns svc m).drop 4 =
        m.map (fun rl => toString rl.2 ++ ":" ++ toString rl.1)
    ∧ (∀ r l, (r, l) ∈ m →
        (toString l ++ ":" ++ toString r) ∈ forward_ports ns svc m) := by
  refine ⟨?_, rfl, rfl, ?_⟩
  · simp [forward_ports]
    omega
  · intro r l hm
    apply List.mem_append_right
    exact List.mem_map.mpr ⟨(r, l), hm, rfl⟩

/-- C8 amended witness: the single entry `{80 ↦ 9000}` contributes the
argument `9000:80`. -/
theorem forward_args_shape_witness :
    "9000:80" ∈ forward_ports { metadata := { name := "ns" } }
      { metadata := { name := "svc" }, spec := { ports := [{ port := 80 }] } }
      [(80, 9000)] :=
  (forward_args_shape { metadata := { name := "ns" } }
    { metadata := { name := "svc" }, spec := { ports := [{ port := 80 }] } }
    [(80, 9000)]).2.2.2 80 9000 (by decide)

/-- C9, evaluated at the failing input (two interrupts): the first
interrupt performs exactly one kill-and-wait cycle, reaps the child and
clears the running flag; a second interrupt invokes the registered
handler again, whose first action is another `kill` attempt on the
already-reaped child (`killAttempts` reaches 2) — that `kill` fails and
the handler's `unwrap()` panics (`.error ()`), so the handler is not
idempotent as the claim and spec require. -/
theorem interrupt_second_kill :
    handlerInvoke supervisorStart = .ok afterFirstInterrupt
    ∧ handlerInvoke afterFirstInterrupt = .error ()
    ∧ (childKill afterFirstInterrupt).1.killAttempts = 2 :=
  ⟨rfl, rfl, rfl⟩

/-- C10 counterexample: with a failing current-context query and live
contexts `["dev", ""]`, the chooser is presented *with* a preselected
default — the `unwrap_or` empty-string sentinel matches the second
context — contradicting "merely without a preselected default". -/
theorem context_failure_counterexample :
    preselect_context ["dev", ""] none 0 =
      .ok (some { items := ["dev", ""], dflt := some 1 }, some "dev") := by
  rfl

/-- C10 amended: if querying the current context fails, the context stage
does not abort: with more than one live context the fuzzy chooser is
still presented, and the preselected default is absent provided the empty
string (the `unwrap_or` substitute for the failed query) is not itself
among the listed contexts. -/
theorem context_failure_keeps_chooser (contexts : List String) (choice : Nat)
    (h2 : 1 < contexts.length) (hne : "" ∉ contexts) :
    preselect_context contexts none choice =
      .ok (some { items := contexts, dflt := none },
           some (contexts.getD choice "")) := by
  have hpos : position (fun ctx => "" = ctx) contexts = none :=
    position_eq_none _ _
      (fun a ha => decide_eq_false (fun heq => hne (heq ▸ ha)))
  have hemp : contexts.isEmpty = false := by
    cases contexts
    · simp at h2
    · rfl
  simp [preselect_context, hemp, h2, hpos]

/-- C10 amended witness: failing query over contexts `["dev", "prod"]`
still shows the chooser, with no default. -/
theorem context_failure_keeps_chooser_witness :
    preselect_context ["dev", "prod"] none 0 =
      .ok (some { items := ["dev", "prod"], dflt := none }, some "dev") :=
  context_failure_keeps_chooser ["dev", "prod"] 0 (by decide) (by decide)

end Kpfr
